import Mathlib

/-!
Verification of the sms-gateway add-on core logic.

This file gives a shallow embedding of the decision logic of the repository:

* the inbox polling / parsing / publish / delete cycle of
  rootfs/app/gammu_mqtt.py (check_inbox),
* the outbound retry queue of gammu_mqtt.py (process_message_queue),
* the connection probing of rootfs/app/gammu_probe.py
  (probe_connection, probe_all_connections, GammuProbeResult.to_dict),
* the device selection and gammurc generation of rootfs/app/usb_switcher.py
  (is_huawei_device, the selection logic of main, test_all_gammu_connections,
  generate_final_gammurc).

External effects (subprocess invocations of gammu, MQTT publishes) appear as
oracle functions passed to the embedded definitions; everything else is
translated directly from the Python source.  Python strings are modelled as
Lean strings and the few Python string primitives the code uses
(membership, split, split-with-maxsplit-1, strip, lower, slicing) are
re-implemented structurally on the character list so that all definitions
evaluate inside the kernel.
-/

namespace SmsGateway

/-! ### Python string primitives -/

/-- Model of Python whitespace, as used by str.strip for the characters that
occur in modem reports. -/
def isPySpace (c : Char) : Bool :=
  c == ' ' || c == '\t' || c == '\n' || c == '\r' || c == '\x0b' || c == '\x0c'

/-- Model of Python str.strip on character lists. -/
def trimChars (l : List Char) : List Char :=
  ((l.dropWhile isPySpace).reverse.dropWhile isPySpace).reverse

/-- Model of Python str.strip. -/
def pyStrip (s : String) : String := String.mk (trimChars s.data)

/-- Model of Python str.lower (ASCII, which is all the code compares). -/
def pyLower (s : String) : String := String.mk (s.data.map Char.toLower)

/-- Whether the first list is a prefix of the second, by character equality. -/
def isPrefixChars : List Char → List Char → Bool
  | [], _ => true
  | _ :: _, [] => false
  | a :: as, b :: bs => a == b && isPrefixChars as bs

/-- Whether sep occurs as a contiguous sublist of the second argument. -/
def containsChars (sep : List Char) : List Char → Bool
  | [] => isPrefixChars sep []
  | c :: rest => isPrefixChars sep (c :: rest) || containsChars sep rest

/-- Model of the Python expression sub in s (substring containment). -/
def pyContains (s sub : String) : Bool := containsChars sub.data s.data

/-- Fuel-driven worker for pySplitOn; fuel is the length of the scanned list,
so it is never exhausted on the initial call. -/
def splitOnCharsFuel (sep : List Char) : Nat → List Char → List Char → List (List Char)
  | 0, rest, acc => [acc.reverse ++ rest]
  | fuel + 1, l, acc =>
    match l with
    | [] => [acc.reverse]
    | c :: rest =>
      if isPrefixChars sep (c :: rest) then
        acc.reverse :: splitOnCharsFuel sep fuel (rest.drop (sep.length - 1)) []
      else
        splitOnCharsFuel sep fuel rest (c :: acc)

/-- Model of Python s.split(sep) for a non-empty separator. -/
def pySplitOn (s sep : String) : List String :=
  if sep.data.isEmpty then [s]
  else (splitOnCharsFuel sep.data s.data.length s.data []).map String.mk

/-- Finds the first occurrence of sep, returning the pieces before and after. -/
def splitFirstAux (sep : List Char) : List Char → List Char → Option (List Char × List Char)
  | [], _acc => none
  | c :: rest, acc =>
    if isPrefixChars sep (c :: rest) then
      some (acc.reverse, rest.drop (sep.length - 1))
    else
      splitFirstAux sep rest (c :: acc)

/-- Model of Python s.split(sep, 1): at most one split, at the first occurrence. -/
def pySplit1 (s sep : String) : List String :=
  match splitFirstAux sep.data s.data [] with
  | none => [s]
  | some (a, b) => [String.mk a, String.mk b]

/-- Model of Python s[:n] (slicing by code points). -/
def pyTake (s : String) (n : Nat) : String := String.mk (s.data.take n)

/-- Model of Python str.splitlines for newline-separated text (the modem
reports contain plain newlines only). -/
def pySplitLines (s : String) : List String := pySplitOn s "\n"

/-- Python truthiness of an optional string: None and the empty string are
falsy. -/
def pyTruthyOpt : Option String → Bool
  | none => false
  | some s => s != ""

/-- Model of the Python expression a or b for an optional string a and a
string b, as in selected_dev.get('by_id_path') or selected_dev['path']. -/
def pyOrPath (o : Option String) (p : String) : String :=
  match o with
  | some s => if s != "" then s else p
  | none => p

/-! ### Inbound message parsing - rootfs/app/gammu_mqtt.py, check_inbox

The getallsms output is split on the record delimiter "SMS message"; each
record is stripped, split into lines, and scanned for the
"Number :" / "Text :" / "Location" field prefixes, each split at the first
colon.  A record is forwarded only when both number and text are non-empty
(Python truthiness of the accumulated strings). -/

/-- An inbound record as accumulated by the line scan of check_inbox. -/
structure InboundRecord where
  number : String
  text : String
  location : String
deriving DecidableEq, Repr

/-- One step of the line scan inside check_inbox: the if/elif chain over the
recognized field prefixes. -/
def parseInboxLine (acc : InboundRecord) (line : String) : InboundRecord :=
  if pyContains line "Number :" then
    match pySplit1 line ":" with
    | [_, v] => { acc with number := pyStrip v }
    | _ => acc
  else if pyContains line "Text :" then
    match pySplit1 line ":" with
    | [_, v] => { acc with text := pyStrip v }
    | _ => acc
  else if pyContains line "Location" then
    match pySplit1 line ":" with
    | [_, v] => { acc with location := pyStrip v }
    | _ => acc
  else acc

/-- Parsing of one record block: sms.strip().splitlines() scanned line by
line starting from empty fields. -/
def parseInboxRecord (sms : String) : InboundRecord :=
  (pySplitLines (pyStrip sms)).foldl parseInboxLine ⟨"", "", ""⟩

/-- All records of a getallsms report: split on "SMS message", drop the
leading text before the first delimiter, parse each block. -/
def inboxRecords (stdout : String) : List InboundRecord :=
  ((pySplitOn stdout "SMS message").drop 1).map parseInboxRecord

/-- The guard if number and text of check_inbox. -/
def keptRecord (r : InboundRecord) : Bool := r.number != "" && r.text != ""

/-- The inbound messages check_inbox actually forwards: records passing the
number-and-text guard. -/
def check_inbox_messages (stdout : String) : List InboundRecord :=
  (inboxRecords stdout).filter keptRecord

/-! ### Inbox side effects - publish and delete order

check_inbox calls client.publish for each kept record (discarding the
returned result object) and then, if a location was parsed, invokes
gammu deletesms on that slot.  The event trace records both calls; the
publish oracle stands for the outcome the MQTT client reports. -/

/-- An externally visible call made by check_inbox for one polling pass. -/
inductive InboxEvent
  | published (number text : String) (ok : Bool)
  | deleted (location : String)
deriving DecidableEq, Repr

/-- The calls made for a single record: nothing for a discarded record; for a
kept record a publish (whose reported outcome the code ignores) followed by a
delete whenever a location was parsed. -/
def recordEvents (publishOk : String → String → Bool) (r : InboundRecord) : List InboxEvent :=
  if keptRecord r then
    InboxEvent.published r.number r.text (publishOk r.number r.text) ::
      (if r.location != "" then [InboxEvent.deleted r.location] else [])
  else []

/-- The full event trace of one check_inbox pass over a getallsms report. -/
def check_inbox_run (publishOk : String → String → Bool) (stdout : String) : List InboxEvent :=
  (inboxRecords stdout).foldl (fun evs r => evs ++ recordEvents publishOk r) []

/-- The storage slots deleted during a pass, in order. -/
def inboxDeletes (evs : List InboxEvent) : List String :=
  evs.filterMap fun e =>
    match e with
    | InboxEvent.deleted loc => some loc
    | _ => none

/-- Checks that every delete event is immediately preceded by a publish event;
the first argument is the previous event, none at the start of the trace. -/
def deletesImmediatelyAfterPublish : Option InboxEvent → List InboxEvent → Bool
  | _, [] => true
  | prev, e :: rest =>
    (match e, prev with
     | InboxEvent.deleted _, some (InboxEvent.published _ _ _) => true
     | InboxEvent.deleted _, _ => false
     | _, _ => true) && deletesImmediatelyAfterPublish (some e) rest

/-! ### Outbound queue - gammu_mqtt.py, on_message / process_message_queue

on_message validates the JSON payload and enqueues the (number, text) pair.
process_message_queue dequeues one pair, attempts send_sms, and on failure
sleeps 30 seconds and re-puts the same pair at the tail of the queue.  The
queue is FIFO, so it is modelled as a list with get at the head and put at
the tail; the send oracle stands for the outcome of the gammu sendsms call. -/

/-- One iteration of the process_message_queue worker on a non-empty queue:
the dequeued pair is dropped on success and re-enqueued unchanged at the tail
on failure; the second component is the backoff delay in seconds observed
before re-enqueueing (time.sleep(30) in the failure branch). -/
def process_message_queue_step (sendOk : String → String → Bool)
    (q : List (String × String)) : List (String × String) × Nat :=
  match q with
  | [] => ([], 0)
  | (number, text) :: rest =>
    if sendOk number text then (rest, 0)
    else (rest ++ [(number, text)], 30)

/-- n iterations of the worker loop. -/
def process_message_queue_iter (sendOk : String → String → Bool) :
    Nat → List (String × String) → List (String × String)
  | 0, q => q
  | n + 1, q => process_message_queue_iter sendOk n (process_message_queue_step sendOk q).1

/-! ### Connection probing - rootfs/app/gammu_probe.py

probe_connection runs two stages against one (device, connection) pair:
gammu --identify, then, only if that succeeded, the Python
gammu.StateMachine Init.  The outcomes of the two external calls are the
identify and pyInit oracles.  The wall-clock timestamp field is omitted from
the embedding. -/

/-- Outcome of the test_gammu_identify stage: (success, stdout, stderr). -/
structure IdentifyOutcome where
  success : Bool
  stdout : String
  stderr : String
deriving DecidableEq, Repr

/-- Outcome of the test_gammu_python_init stage:
(success, error_message, exception_traceback). -/
structure PyInitOutcome where
  success : Bool
  error_msg : Option String
  exception_tb : Option String
deriving DecidableEq, Repr

/-- The GammuProbeResult record (the section field of the source is called
sectionName here because section is a Lean keyword). -/
structure GammuProbeResult where
  connection : String
  sectionName : String
  success : Bool
  stdout : String
  stderr : String
  exception : Option String
  device_path : Option String
  error_details : Option String
deriving DecidableEq, Repr

/-- The probe_connection function: stage 1 gammu --identify, whose stdout and
stderr are always recorded; a stage-1 failure short-circuits stage 2 and sets
error_details; a stage-2 failure records the exception message and traceback;
otherwise the probe succeeds. -/
def probe_connection (identify : String → String → String → IdentifyOutcome)
    (pyInit : String → String → String → PyInitOutcome)
    (device_path connection sectionName : String) : GammuProbeResult :=
  let idres := identify device_path connection sectionName
  if !idres.success then
    { connection := connection, sectionName := sectionName, success := false,
      stdout := idres.stdout, stderr := idres.stderr, exception := none,
      device_path := some device_path,
      error_details := some ("gammu --identify failed: " ++ idres.stderr) }
  else
    let pyres := pyInit device_path connection sectionName
    if !pyres.success then
      { connection := connection, sectionName := sectionName, success := false,
        stdout := idres.stdout, stderr := idres.stderr, exception := pyres.error_msg,
        device_path := some device_path, error_details := pyres.exception_tb }
    else
      { connection := connection, sectionName := sectionName, success := true,
        stdout := idres.stdout, stderr := idres.stderr, exception := none,
        device_path := some device_path, error_details := none }

/-- The dictionary produced by GammuProbeResult.to_dict. -/
structure ProbeResultDict where
  connection : String
  sectionName : String
  success : Bool
  stdout : String
  stderr : String
  exception : Option String
  device_path : Option String
  error_details : Option String
deriving DecidableEq, Repr

/-- GammuProbeResult.to_dict: stdout and stderr are truncated to 1000
characters (empty stays empty); the exception is passed through when truthy. -/
def GammuProbeResult.to_dict (r : GammuProbeResult) : ProbeResultDict :=
  { connection := r.connection, sectionName := r.sectionName, success := r.success,
    stdout := if r.stdout != "" then pyTake r.stdout 1000 else "",
    stderr := if r.stderr != "" then pyTake r.stderr 1000 else "",
    exception :=
      match r.exception with
      | some s => if s != "" then some s else none
      | none => none,
    device_path := r.device_path, error_details := r.error_details }

/-- The gammurc section name used for the i-th probed connection:
gammu for the first, gammu1, gammu2, ... after that. -/
def sectionFor (i : Nat) : String :=
  if i == 0 then "gammu" else "gammu" ++ toString i

/-- The diagnostics dictionary built by probe_all_connections (the wall-clock
timestamp entry is omitted). -/
structure ProbeDiagnostics where
  device : String
  successful_connection : Option String
  all_failed : Bool
  tested_connections : List ProbeResultDict
deriving DecidableEq, Repr

/-- The dictionary returned by probe_all_connections. -/
structure ProbeAllOutcome where
  successful_connection : Option String
  all_results : List GammuProbeResult
  diagnostics : ProbeDiagnostics
deriving DecidableEq, Repr

/-- The body of the probing loop of probe_all_connections: append the probe
result and record the connection as successful only when the probe succeeded
and no (truthy) success was recorded before. -/
def probeFoldStep (f : Nat × String → GammuProbeResult)
    (st : List GammuProbeResult × Option String) (ic : Nat × String) :
    List GammuProbeResult × Option String :=
  let result := f ic
  (st.1 ++ [result],
   if result.success && !(pyTruthyOpt st.2) then some ic.2 else st.2)

/-- probe_all_connections: every connection of the list is probed in order
(the loop never breaks), and the diagnostics record the device, the first
successful connection, the all_failed flag (successful_connection is None)
and the serialized per-probe results. -/
def probe_all_connections (identify : String → String → String → IdentifyOutcome)
    (pyInit : String → String → String → PyInitOutcome)
    (device_path : String) (connections : List String) : ProbeAllOutcome :=
  let st := connections.enum.foldl
    (probeFoldStep fun ic => probe_connection identify pyInit device_path ic.2 (sectionFor ic.1))
    ([], none)
  { successful_connection := st.2,
    all_results := st.1,
    diagnostics :=
      { device := device_path,
        successful_connection := st.2,
        all_failed := st.2.isNone,
        tested_connections := st.1.map GammuProbeResult.to_dict } }

/-! ### Connection testing and gammurc generation - rootfs/app/usb_switcher.py -/

/-- The dictionary built by test_gammu_connection; the runIdentify oracle
stands for run_command on gammu --identify and returns
(returncode, stdout, stderr), with exceptions folded into a non-zero code as
run_command does. -/
structure TestConnResult where
  success : Bool
  output : String
  error : String
  connection : String
  sectionName : String
deriving DecidableEq, Repr

/-- test_gammu_connection: success exactly when the identify call exits 0;
stdout and stderr are recorded either way. -/
def test_gammu_connection (runIdentify : String → String → String → Int × String × String)
    (device_path connection sectionName : String) : TestConnResult :=
  let r := runIdentify device_path connection sectionName
  { success := r.1 == 0, output := r.2.1, error := r.2.2,
    connection := connection, sectionName := sectionName }

/-- The first successful connection recorded by test_all_gammu_connections. -/
structure SuccessfulConn where
  connection : String
  sectionName : String
  output : String
deriving DecidableEq, Repr

/-- One entry of the tested_connections list of the switcher diagnostics;
the error detail is truncated to 500 characters, an empty error becomes None. -/
structure TestedConnEntry where
  connection : String
  sectionName : String
  success : Bool
  error : Option String
deriving DecidableEq, Repr

/-- Construction of a tested_connections entry from one test result. -/
def testedConnEntry (connection sectionName : String) (result : TestConnResult) :
    TestedConnEntry :=
  { connection := connection, sectionName := sectionName, success := result.success,
    error := if result.error != "" then some (pyTake result.error 500) else none }

/-- The diagnostics dictionary of test_all_gammu_connections (wall-clock
timestamp omitted). -/
structure SwitcherDiagnostics where
  device : String
  tested_connections : List TestedConnEntry
  successful_connection : Option String
  all_failed : Bool
deriving DecidableEq, Repr

/-- The dictionary returned by test_all_gammu_connections. -/
structure TestAllOutcome where
  successful_connection : Option SuccessfulConn
  diagnostics : SwitcherDiagnostics
  all_results : List TestConnResult
deriving DecidableEq, Repr

/-- The fixed connection catalogue of test_all_gammu_connections. -/
def connections_to_test : List (String × String) :=
  [("at115200", "gammu"), ("at9600", "gammu1"), ("at", "gammu2")]

/-- test_all_gammu_connections: every catalogue entry is tested in order, a
tested_connections entry is appended per test, the first success is recorded
and the loop does not break; afterwards all_failed is set exactly when no
success was recorded. -/
def test_all_gammu_connections (runIdentify : String → String → String → Int × String × String)
    (device_path : String) : TestAllOutcome :=
  let st := connections_to_test.foldl
    (fun (st : List TestConnResult × List TestedConnEntry × Option SuccessfulConn × Option String) cs =>
      let result := test_gammu_connection runIdentify device_path cs.1 cs.2
      let all_results := st.1 ++ [result]
      let tested := st.2.1 ++ [testedConnEntry cs.1 cs.2 result]
      if result.success && st.2.2.1.isNone then
        (all_results, tested, some ⟨cs.1, cs.2, result.output⟩, some cs.1)
      else
        (all_results, tested, st.2.2.1, st.2.2.2))
    ([], [], none, none)
  { successful_connection := st.2.2.1,
    diagnostics :=
      { device := device_path,
        tested_connections := st.2.1,
        successful_connection := st.2.2.2,
        all_failed := st.2.2.1.isNone },
    all_results := st.1 }

/-- The gammurc text written by generate_final_gammurc, with the primary
section's connection as a parameter and the fixed at9600 / at fallback
sections. -/
def gammurcContent (device_path primary : String) : String :=
  "[gammu]\nport = " ++ device_path ++ "\nconnection = " ++ primary ++
  "\n\n[gammu1]\nport = " ++ device_path ++ "\nconnection = at9600\n\n[gammu2]\nport = " ++
  device_path ++ "\nconnection = at\n"

/-- generate_final_gammurc: the primary connection is the successful one, or
at115200 when no connection test succeeded. -/
def generate_final_gammurc_content (device_path : String)
    (successful_connection : Option SuccessfulConn) : String :=
  let connection :=
    match successful_connection with
    | some s => s.connection
    | none => "at115200"
  gammurcContent device_path connection

/-! ### Device selection - rootfs/app/usb_switcher.py, is_huawei_device and
the selection logic of main (step 6) -/

/-- The metadata record built by get_device_info_from_path / discovery. -/
structure DeviceMeta where
  path : String
  vendor : String
  product : String
  model : String
  serial : String
  manufacturer : String
  by_id_path : Option String
deriving DecidableEq, Repr

/-- HUAWEI_MODEM_PATTERNS of usb_switcher.py. -/
def HUAWEI_MODEM_PATTERNS : List String :=
  ["e3276", "e3131", "e3372", "e3531", "e353", "e173",
   "huawei", "mobile_connect", "mobile connect"]

/-- is_huawei_device: by-id path containing huawei, else vendor id 12d1, else
manufacturer containing huawei, else a known pattern occurring in the model
or product string (all lower-cased); evaluated in this order within one
device. -/
def is_huawei_device (d : DeviceMeta) : Bool :=
  (match d.by_id_path with
   | some p => p != "" && pyContains (pyLower p) "huawei"
   | none => false) ||
  (pyLower d.vendor == "12d1") ||
  pyContains (pyLower d.manufacturer) "huawei" ||
  HUAWEI_MODEM_PATTERNS.any
    (fun pat => pyContains (pyLower d.model) pat || pyContains (pyLower d.product) pat)

/-- The device selection of main (step 6): a truthy configured device wins
unconditionally; with no devices or exactly one device the decision ignores
metadata; with several devices the first device (in discovery order) passing
is_huawei_device is chosen, preferring its by-id alias path when truthy; with
several devices and no recognized modem nothing is selected.  The result is
(device_to_use, selection_reason). -/
def select_device (configured_device : Option String) (devices : List DeviceMeta) :
    Option String × Option String :=
  if pyTruthyOpt configured_device then
    (configured_device, some "user-configured in add-on options")
  else
    match devices with
    | [] => (none, some "no devices found")
    | [d] => (some d.path, some "single device auto-detected")
    | _ :: _ :: _ =>
      match devices.filter is_huawei_device with
      | [] => (none, some "multiple non-Huawei devices, manual config required")
      | selected_dev :: _ =>
        (some (pyOrPath selected_dev.by_id_path selected_dev.path),
         some "Huawei modem intelligently selected from multiple devices")

/-! ### Concrete example inputs used by scenario conjuncts and witnesses -/

/-- A synthetic getallsms report with two valid records and one record
missing the sender number. -/
def exInboxReport : String :=
  "Locations 3\nSMS message 1\nNumber : +48111222333\nText : hello world\nLocation : 1\nSMS message 2\nText : no sender here\nLocation : 2\nSMS message 3\nNumber : +48999888777\nText : second valid\nLocation : 3\n"

/-- A getallsms report with a single complete record. -/
def exReportOneMsg : String :=
  "x SMS message 1\nNumber : +48123\nText : hi\nLocation : 1"

/-- An identify oracle that succeeds exactly on the at9600 connection. -/
def exIdentifyAt9600 : String → String → String → IdentifyOutcome :=
  fun _device connection _sect =>
    if connection == "at9600" then ⟨true, "identified", ""⟩ else ⟨false, "", "no response"⟩

/-- A Python-Init oracle that always succeeds. -/
def exPyInitOk : String → String → String → PyInitOutcome :=
  fun _ _ _ => ⟨true, none, none⟩

/-- An identify oracle that never succeeds. -/
def exIdentifyNever : String → String → String → IdentifyOutcome :=
  fun _ _ _ => ⟨false, "", "err"⟩

/-- A run_command oracle for the switcher tests that always exits non-zero. -/
def exRunIdentifyFail : String → String → String → Int × String × String :=
  fun _ _ _ => (1, "", "identify failed")

/-- A non-modem serial device: no metadata field matches any recognition test. -/
def exDevPlain : DeviceMeta :=
  ⟨"/dev/ttyUSB2", "1a2b", "0001", "serial adapter", "sn0", "FTDI", none⟩

/-- A Huawei modem carrying a stable by-id alias path. -/
def exDevHuaweiById : DeviceMeta :=
  ⟨"/dev/ttyUSB3", "12d1", "1506", "e3276", "sn1", "HUAWEI",
   some "/dev/serial/by-id/usb-HUAWEI_Mobile-if00-port0"⟩

/-- A device recognized only through the model-pattern test: its vendor id,
manufacturer and by-id path match nothing. -/
def exDevPatternOnly : DeviceMeta :=
  ⟨"/dev/ttyUSB0", "0bdb", "0001", "E3531 stick", "s1", "Generic", none⟩

/-- A device recognized through the vendor-id test. -/
def exDevVendorMatch : DeviceMeta :=
  ⟨"/dev/ttyUSB1", "12d1", "1465", "unknown", "s2", "unknown", none⟩

/-- A probe result whose raw stdout and stderr exceed the truncation limit. -/
def bigProbeResult : GammuProbeResult :=
  { connection := "at", sectionName := "gammu", success := false,
    stdout := String.mk (List.replicate 1001 'a'),
    stderr := String.mk (List.replicate 1001 'b'),
    exception := none, device_path := none, error_details := none }

/-- A switcher test result whose error detail exceeds the truncation limit. -/
def bigTestResult : TestConnResult :=
  { success := false, output := "", error := String.mk (List.replicate 501 'e'),
    connection := "at", sectionName := "gammu" }

/-! ### Helper lemmas -/

/-- Length of a string built from a character list. -/
lemma length_mk (l : List Char) : (String.mk l).length = l.length := rfl

/-- Length of a Python slice s[:n]. -/
lemma pyTake_length (s : String) (n : Nat) : (pyTake s n).length = min n s.length := by
  rw [pyTake, length_mk, List.length_take]; rfl

/-- Folding an event-appending loop equals the concatenation of the
per-record event blocks. -/
lemma foldl_append_bind {α β : Type} (f : α → List β) :
    ∀ (l : List α) (init : List β),
      l.foldl (fun evs r => evs ++ f r) init = init ++ l.flatMap f := by
  intro l
  induction l with
  | nil => intro init; simp
  | cons a t ih => intro init; simp [ih, List.append_assoc]

/-- The check_inbox event trace is the concatenation of per-record blocks. -/
lemma check_inbox_run_eq_bind (publishOk : String → String → Bool) (stdout : String) :
    check_inbox_run publishOk stdout = (inboxRecords stdout).flatMap (recordEvents publishOk) := by
  simpa [check_inbox_run] using foldl_append_bind (recordEvents publishOk) (inboxRecords stdout) []

/-- In a concatenation of per-record blocks every delete event is immediately
preceded by a publish event, whatever the previous event was. -/
lemma deletes_after_publish_bind (publishOk : String → String → Bool)
    (l : List InboundRecord) :
    ∀ p, deletesImmediatelyAfterPublish p (l.flatMap (recordEvents publishOk)) = true := by
  induction l with
  | nil => intro p; rfl
  | cons r t ih =>
    intro p
    by_cases hk : keptRecord r = true
    · by_cases hl : (r.location != "") = true
      · simp [recordEvents, hk, hl, deletesImmediatelyAfterPublish, ih]
      · simp [recordEvents, hk, hl, deletesImmediatelyAfterPublish, ih]
    · simp [recordEvents, hk, ih]

/-- The deletes of concatenated traces. -/
lemma inboxDeletes_append (a b : List InboxEvent) :
    inboxDeletes (a ++ b) = inboxDeletes a ++ inboxDeletes b := by
  simp [inboxDeletes]

/-- The deletes of a trace are the locations of the kept records having a
non-empty location, independently of the publish oracle. -/
lemma inboxDeletes_bind (publishOk : String → String → Bool) (l : List InboundRecord) :
    inboxDeletes (l.flatMap (recordEvents publishOk)) =
      (l.filter (fun r => keptRecord r && r.location != "")).map (fun r => r.location) := by
  induction l with
  | nil => rfl
  | cons r t ih =>
    rw [List.flatMap_cons, inboxDeletes_append, ih, List.filter_cons]
    by_cases hk : keptRecord r = true
    · by_cases hl : (r.location != "") = true
      · simp [recordEvents, hk, hl, inboxDeletes]
      · simp [recordEvents, hk, hl, inboxDeletes]
    · simp [recordEvents, hk, inboxDeletes]

/-- The accumulated result list of the probing loop. -/
lemma probeFold_results (f : Nat × String → GammuProbeResult) (l : List (Nat × String)) :
    ∀ rs sc, (l.foldl (probeFoldStep f) (rs, sc)).1 = rs ++ l.map f := by
  induction l with
  | nil => intro rs sc; simp
  | cons ic t ih => intro rs sc; simp [probeFoldStep, ih, List.append_assoc]

/-- Once a truthy successful connection is recorded the loop never changes it. -/
lemma probeFold_stay (f : Nat × String → GammuProbeResult) (l : List (Nat × String)) :
    ∀ rs (s : String), s ≠ "" → (l.foldl (probeFoldStep f) (rs, some s)).2 = some s := by
  induction l with
  | nil => intro rs s _; rfl
  | cons ic t ih =>
    intro rs s hs
    have h1 : pyTruthyOpt (some s) = true := by simp [pyTruthyOpt, hs]
    simp [probeFoldStep, h1, ih _ _ hs]

/-- Once any successful connection is recorded the loop keeps some value. -/
lemma probeFold_isSome (f : Nat × String → GammuProbeResult) (l : List (Nat × String)) :
    ∀ rs (s : String), ((l.foldl (probeFoldStep f) (rs, some s)).2).isSome := by
  induction l with
  | nil => intro rs s; rfl
  | cons ic t ih =>
    intro rs s
    by_cases hc : ((f ic).success && !(pyTruthyOpt (some s))) = true
    · simp only [List.foldl_cons, probeFoldStep, hc, if_true]
      exact ih _ _
    · simp only [List.foldl_cons, probeFoldStep, hc, if_false]
      exact ih _ _

/-- Starting from none, the recorded successful connection is the second
component of the first enumerated pair whose probe succeeded, provided all
connection labels are truthy. -/
lemma probeFold_find (f : Nat × String → GammuProbeResult) (l : List (Nat × String))
    (hne : ∀ ic ∈ l, ic.2 ≠ "") :
    ∀ rs, (l.foldl (probeFoldStep f) (rs, none)).2 =
      (l.find? (fun ic => (f ic).success)).map Prod.snd := by
  induction l with
  | nil => intro rs; rfl
  | cons ic t ih =>
    intro rs
    by_cases hs : (f ic).success = true
    · have hic : ic.2 ≠ "" := hne ic (List.mem_cons_self ic t)
      simp [probeFoldStep, pyTruthyOpt, hs, List.find?_cons, probeFold_stay f t _ _ hic]
    · have hne' : ∀ ic' ∈ t, ic'.2 ≠ "" := fun ic' h => hne ic' (List.mem_cons_of_mem ic h)
      simp [probeFoldStep, pyTruthyOpt, hs, List.find?_cons, ih hne']

/-- Starting from none, the loop records no successful connection exactly
when every probe of the list failed. -/
lemma probeFold_none_iff (f : Nat × String → GammuProbeResult) (l : List (Nat × String)) :
    ∀ rs, ((l.foldl (probeFoldStep f) (rs, none)).2 = none ↔
      ∀ ic ∈ l, (f ic).success = false) := by
  induction l with
  | nil => intro rs; simp
  | cons ic t ih =>
    intro rs
    by_cases hs : (f ic).success = true
    · have hsome := probeFold_isSome f t (rs ++ [f ic]) ic.2
      constructor
      · intro h
        rw [show (List.foldl (probeFoldStep f) (rs, none) (ic :: t)) =
              (List.foldl (probeFoldStep f)
                (rs ++ [f ic], some ic.2) t) from by simp [probeFoldStep, pyTruthyOpt, hs]] at h
        rw [h] at hsome
        exact absurd hsome (by simp)
      · intro h
        exact absurd (h ic (List.mem_cons_self ic t)) (by simp [hs])
    · simp [probeFoldStep, pyTruthyOpt, hs, ih]

/-- The connection field of a probe result is the probed connection. -/
lemma probe_connection_connection (identify : String → String → String → IdentifyOutcome)
    (pyInit : String → String → String → PyInitOutcome) (d c s : String) :
    (probe_connection identify pyInit d c s).connection = c := by
  simp only [probe_connection]
  split
  · rfl
  · split <;> rfl

/-- The snd projection of an enumerated list recovers the list. -/
lemma enumFrom_map_snd {α : Type} (l : List α) :
    ∀ n, (List.enumFrom n l).map Prod.snd = l := by
  induction l with
  | nil => intro n; rfl
  | cons a t ih => intro n; simp [List.enumFrom, ih]

/-- Membership in an enumerated list gives membership of the element. -/
lemma snd_mem_of_mem_enum {α : Type} {l : List α} {ic : Nat × α} (h : ic ∈ l.enum) :
    ic.2 ∈ l := by
  have : ic.2 ∈ l.enum.map Prod.snd := List.mem_map_of_mem Prod.snd h
  rwa [List.enum, enumFrom_map_snd] at this

/-- The head of a filtered list is the first element satisfying the test. -/
lemma filter_head?_eq_find? {α : Type} (p : α → Bool) (l : List α) :
    (l.filter p).head? = l.find? p := by
  induction l with
  | nil => rfl
  | cons a t ih =>
    by_cases h : p a = true
    · simp [List.filter_cons, h, List.find?_cons]
    · simp [List.filter_cons, h, List.find?_cons, ih]

/-! ### Claim theorems -/

set_option maxRecDepth 8000 in
/-- C1 (counterexample): on a getallsms report with one complete record and a
publish oracle that always fails, check_inbox still deletes the backing
storage slot: the event trace contains a delete of location 1 although the
only publish has outcome false.  This refutes the claim that a slot is
deleted only when the publish returned success. -/
theorem C1_counterexample :
    check_inbox_run (fun _ _ => false) exReportOneMsg =
      [InboxEvent.published "+48123" "hi" false, InboxEvent.deleted "1"] ∧
    InboxEvent.deleted "1" ∈ check_inbox_run (fun _ _ => false) exReportOneMsg := by
  decide

/-- C1 (amended): for every publish oracle and every report, each delete in
the check_inbox event trace is immediately preceded by the publish of its
record (the publish call always precedes the delete); but the set of deleted
slots is identical for any two publish oracles and equals the locations of
all kept records with a non-empty parsed location — the slot is deleted
regardless of the publish result, whose outcome the code ignores. -/
theorem C1_theorem (publishOk publishOk' : String → String → Bool) (stdout : String) :
    deletesImmediatelyAfterPublish none (check_inbox_run publishOk stdout) = true ∧
    inboxDeletes (check_inbox_run publishOk stdout) =
      inboxDeletes (check_inbox_run publishOk' stdout) ∧
    inboxDeletes (check_inbox_run publishOk stdout) =
      ((inboxRecords stdout).filter
        (fun r => keptRecord r && r.location != "")).map (fun r => r.location) := by
  refine ⟨?_, ?_, ?_⟩
  · rw [check_inbox_run_eq_bind]
    exact deletes_after_publish_bind publishOk (inboxRecords stdout) none
  · rw [check_inbox_run_eq_bind, check_inbox_run_eq_bind, inboxDeletes_bind, inboxDeletes_bind]
  · rw [check_inbox_run_eq_bind, inboxDeletes_bind]

/-- C2 (counterexample): in the code an outbound message is the bare
(number, text) pair and a failed delivery re-enqueues exactly that pair, so
the queue state after one failed delivery equals the state after two, and no
attempts counter incremented on each failure can exist on the message.  This
refutes the claim that after N failed deliveries the message has
attempts == N. -/
theorem C2_counterexample :
    (process_message_queue_step (fun _ _ => false) [("123", "hi")]).1 = [("123", "hi")] ∧
    process_message_queue_iter (fun _ _ => false) 2 [("123", "hi")] =
      process_message_queue_iter (fun _ _ => false) 1 [("123", "hi")] ∧
    ¬ ∃ attemptsOf : String × String → Nat,
        ∀ m : String × String,
          ∀ m' ∈ (process_message_queue_step (fun _ _ => false) [m]).1,
            attemptsOf m' = attemptsOf m + 1 := by
  refine ⟨rfl, rfl, ?_⟩
  rintro ⟨f, hf⟩
  have h := hf ("a", "b") ("a", "b") (by simp [process_message_queue_step])
  omega

/-- C2 (amended): a valid outbound message whose delivery fails is never
dropped: it survives every queue step in which its send fails, a failing head
is re-enqueued unchanged at the tail after the fixed 30-second backoff, and
under an always-failing sender the message is still in the queue after any
number N of failed delivery rounds; the code maintains no attempts counter
and no abandonment threshold. -/
theorem C2_theorem (sendOk : String → String → Bool) (number text : String) :
    (∀ q, sendOk number text = false → (number, text) ∈ q →
        (number, text) ∈ (process_message_queue_step sendOk q).1) ∧
    (∀ rest, sendOk number text = false →
        process_message_queue_step sendOk ((number, text) :: rest) =
          (rest ++ [(number, text)], 30)) ∧
    ((∀ a b, sendOk a b = false) → ∀ n,
        process_message_queue_iter sendOk n [(number, text)] = [(number, text)]) := by
  refine ⟨?_, ?_, ?_⟩
  · intro q hfail hmem
    match q with
    | [] => cases hmem
    | (a, b) :: rest =>
      rcases List.mem_cons.mp hmem with heq | hmem'
      · have ha : a = number := by cases heq; rfl
        have hb : b = text := by cases heq; rfl
        subst ha; subst hb
        simp [process_message_queue_step, hfail]
      · by_cases hs : sendOk a b = true
        · simpa [process_message_queue_step, hs] using hmem'
        · simp only [process_message_queue_step, Bool.not_eq_true] at hs ⊢
          rw [hs]
          simp [List.mem_append, hmem']
  · intro rest hfail
    simp [process_message_queue_step, hfail]
  · intro hall n
    induction n with
    | zero => rfl
    | succ k ih =>
      show process_message_queue_iter sendOk k
        (process_message_queue_step sendOk [(number, text)]).1 = _
      rw [show (process_message_queue_step sendOk [(number, text)]).1 = [(number, text)] from by
        simp [process_message_queue_step, hall]]
      exact ih

/-- C2 (witness). -/
theorem C2_theorem_witness :
    ("48", "x") ∈ (process_message_queue_step (fun _ _ => false) [("48", "x")]).1 ∧
    process_message_queue_iter (fun _ _ => false) 3 [("48", "x")] = [("48", "x")] :=
  ⟨( C2_theorem (fun _ _ => false) "48" "x").1 [("48", "x")] rfl (by simp),
   ( C2_theorem (fun _ _ => false) "48" "x").2.2 (fun _ _ => rfl) 3⟩

set_option maxRecDepth 8000 in
/-- C8: every inbound message forwarded by check_inbox has a non-empty sender
number and non-empty text, and parsing the synthetic report with two valid
records and one record lacking a sender number parses three records but
forwards exactly the two valid messages; the incomplete record is dropped
without any error outcome. -/
theorem C8_theorem :
    (∀ stdout : String, ∀ r ∈ check_inbox_messages stdout, r.number ≠ "" ∧ r.text ≠ "") ∧
    (inboxRecords exInboxReport).length = 3 ∧
    check_inbox_messages exInboxReport =
      [⟨"+48111222333", "hello world", "1"⟩, ⟨"+48999888777", "second valid", "3"⟩] := by
  refine ⟨?_, by decide, by decide⟩
  intro stdout r hr
  have hk : keptRecord r = true := List.of_mem_filter hr
  simpa [keptRecord] using hk

set_option maxRecDepth 8000 in
/-- C8 (witness). -/
theorem C8_witness :
    (⟨"+48111222333", "hello world", "1"⟩ : InboundRecord).number ≠ "" ∧
    (⟨"+48111222333", "hello world", "1"⟩ : InboundRecord).text ≠ "" :=
  C8_theorem.1 exInboxReport ⟨"+48111222333", "hello world", "1"⟩ (by decide)

/-- C3: for every device path, ordered (non-empty-labelled) connection list
and stage oracles, probe_all_connections probes every connection in order
without stopping at the first success — the result list has exactly one probe
result per connection, in order — and the recorded successful connection is
the first one whose probe succeeded; in the concrete scenario
[at115200, at9600, at] with at115200 failing and at9600 succeeding, the
chosen connection is at9600 and the result list has length 3. -/
theorem C3_theorem (identify : String → String → String → IdentifyOutcome)
    (pyInit : String → String → String → PyInitOutcome)
    (device_path : String) (connections : List String)
    (hne : ∀ c ∈ connections, c ≠ "") :
    (probe_all_connections identify pyInit device_path connections).all_results =
      connections.enum.map
        (fun ic => probe_connection identify pyInit device_path ic.2 (sectionFor ic.1)) ∧
    (probe_all_connections identify pyInit device_path connections).all_results.length =
      connections.length ∧
    (probe_all_connections identify pyInit device_path connections).successful_connection =
      (connections.enum.find? (fun ic =>
        (probe_connection identify pyInit device_path ic.2 (sectionFor ic.1)).success)).map
        Prod.snd ∧
    (probe_all_connections exIdentifyAt9600 exPyInitOk "/dev/ttyUSB0"
        ["at115200", "at9600", "at"]).successful_connection = some "at9600" ∧
    (probe_all_connections exIdentifyAt9600 exPyInitOk "/dev/ttyUSB0"
        ["at115200", "at9600", "at"]).all_results.length = 3 := by
  have hne' : ∀ ic ∈ connections.enum, ic.2 ≠ "" :=
    fun ic h => hne ic.2 (snd_mem_of_mem_enum h)
  refine ⟨?_, ?_, ?_, by decide, by decide⟩
  · simpa [probe_all_connections] using
      probeFold_results
        (fun ic => probe_connection identify pyInit device_path ic.2 (sectionFor ic.1))
        connections.enum [] none
  · have h := probeFold_results
      (fun ic => probe_connection identify pyInit device_path ic.2 (sectionFor ic.1))
      connections.enum [] none
    simp [probe_all_connections, h, List.enum_length]
  · simpa [probe_all_connections] using
      probeFold_find
        (fun ic => probe_connection identify pyInit device_path ic.2 (sectionFor ic.1))
        connections.enum hne' []

/-- C3 (witness). -/
theorem C3_witness :
    (probe_all_connections exIdentifyAt9600 exPyInitOk "/dev/ttyUSB0"
        ["at115200", "at9600", "at"]).successful_connection = some "at9600" :=
  ( C3_theorem exIdentifyAt9600 exPyInitOk "/dev/ttyUSB0" ["at115200", "at9600", "at"]
    (by decide)).2.2.2.1

/-- C9: for every device path, ordered connection list and stage oracles, the
diagnostics of probe_all_connections report all_failed exactly when no probe
of the run succeeded (equivalently, exactly when successful_connection is
None), and the tested_connections record has exactly one entry per requested
connection, carrying the requested connection names in the requested order. -/
theorem C9_theorem (identify : String → String → String → IdentifyOutcome)
    (pyInit : String → String → String → PyInitOutcome)
    (device_path : String) (connections : List String) :
    ((probe_all_connections identify pyInit device_path connections).diagnostics.all_failed =
        true ↔
      ∀ ic ∈ connections.enum,
        (probe_connection identify pyInit device_path ic.2 (sectionFor ic.1)).success = false) ∧
    ((probe_all_connections identify pyInit device_path connections).diagnostics.all_failed =
        true ↔
      (probe_all_connections identify pyInit device_path connections).successful_connection =
        none) ∧
    (probe_all_connections identify pyInit device_path
        connections).diagnostics.tested_connections.map (fun d => d.connection) = connections ∧
    (probe_all_connections identify pyInit device_path
        connections).diagnostics.tested_connections.length = connections.length := by
  have hres := probeFold_results
    (fun ic => probe_connection identify pyInit device_path ic.2 (sectionFor ic.1))
    connections.enum [] none
  have hnone := probeFold_none_iff
    (fun ic => probe_connection identify pyInit device_path ic.2 (sectionFor ic.1))
    connections.enum []
  refine ⟨?_, ?_, ?_, ?_⟩
  · simpa [probe_all_connections, Option.isNone_iff_eq_none] using hnone
  · simp [probe_all_connections, Option.isNone_iff_eq_none]
  · rw [show (probe_all_connections identify pyInit device_path
          connections).diagnostics.tested_connections =
        (connections.enum.map (fun ic =>
          probe_connection identify pyInit device_path ic.2 (sectionFor ic.1))).map
          GammuProbeResult.to_dict from by simp [probe_all_connections, hres]]
    rw [List.map_map, List.map_map]
    have : ∀ ic ∈ connections.enum,
        ((GammuProbeResult.to_dict ∘ fun ic =>
          probe_connection identify pyInit device_path ic.2 (sectionFor ic.1)) ic).connection =
          ic.2 := by
      intro ic _
      simp [Function.comp, GammuProbeResult.to_dict, probe_connection_connection]
    calc ((fun d => d.connection) ∘ GammuProbeResult.to_dict ∘ fun ic =>
            probe_connection identify pyInit device_path ic.2 (sectionFor ic.1)) <$>
          connections.enum
        = connections.enum.map Prod.snd := List.map_congr_left (by
            intro ic hic
            simpa using this ic hic)
      _ = connections := by rw [List.enum, enumFrom_map_snd]
  · rw [show (probe_all_connections identify pyInit device_path
          connections).diagnostics.tested_connections =
        (connections.enum.map (fun ic =>
          probe_connection identify pyInit device_path ic.2 (sectionFor ic.1))).map
          GammuProbeResult.to_dict from by simp [probe_all_connections, hres]]
    simp [List.enum_length]

/-- C9 (witness). -/
theorem C9_witness :
    (probe_all_connections exIdentifyNever exPyInitOk "/dev/ttyUSB0"
        ["at115200", "at"]).diagnostics.all_failed = true :=
  ( C9_theorem exIdentifyNever exPyInitOk "/dev/ttyUSB0" ["at115200", "at"]).1.mpr (by decide)

/-- C4: whenever a (truthy) device path is configured in the options, the
selection of main returns exactly that path with the user-configured
selection reason, for every list of discovered candidates — including lists
not containing the configured path. -/
theorem C4_theorem (configured : String) (devices : List DeviceMeta)
    (h : configured ≠ "") :
    select_device (some configured) devices =
      (some configured, some "user-configured in add-on options") := by
  have ht : pyTruthyOpt (some configured) = true := by simp [pyTruthyOpt, h]
  simp [select_device, ht]

set_option maxRecDepth 8000 in
/-- C4 (witness): the configured path is returned although it is absent from
the discovered candidates. -/
theorem C4_witness :
    select_device (some "/dev/ttyACM9") [exDevPlain, exDevHuaweiById] =
      (some "/dev/ttyACM9", some "user-configured in add-on options") ∧
    exDevPlain.path ≠ "/dev/ttyACM9" ∧ exDevHuaweiById.path ≠ "/dev/ttyACM9" :=
  ⟨ C4_theorem "/dev/ttyACM9" [exDevPlain, exDevHuaweiById] (by decide), by decide, by decide⟩

set_option maxRecDepth 8000 in
/-- C5 (counterexample): a single discovered candidate carrying a stable
by-id alias path is selected through its raw enumerated path, not through the
alias — the single-candidate branch of main ignores by_id_path.  This refutes
the claim that the alias is preferred in every selection branch. -/
theorem C5_counterexample :
    select_device none [exDevHuaweiById] =
      (some "/dev/ttyUSB3", some "single device auto-detected") ∧
    exDevHuaweiById.by_id_path = some "/dev/serial/by-id/usb-HUAWEI_Mobile-if00-port0" ∧
    (select_device none [exDevHuaweiById]).1 ≠
      some "/dev/serial/by-id/usb-HUAWEI_Mobile-if00-port0" := by
  decide

/-- C5 (amended): the stable alias path is preferred over the raw enumerated
path only in the multiple-candidates branch that recognizes a modem: there,
when the first recognized candidate has a truthy by-id path, that alias is
the selected path; in the single-candidate branch the raw enumerated path is
returned whatever the candidate's alias is. -/
theorem C5_theorem (devices : List DeviceMeta) (d : DeviceMeta) (s : String) :
    (∀ d0 : DeviceMeta, select_device none [d0] =
        (some d0.path, some "single device auto-detected")) ∧
    (2 ≤ devices.length →
      (devices.filter is_huawei_device).head? = some d →
      d.by_id_path = some s → s ≠ "" →
      (select_device none devices).1 = some s) := by
  constructor
  · intro d0; rfl
  · intro h2 hh hb hs
    rcases devices with _ | ⟨a, rest⟩
    · exact absurd h2 (by simp)
    rcases rest with _ | ⟨b, t⟩
    · exact absurd h2 (by simp)
    cases hfil : (a :: b :: t).filter is_huawei_device with
    | nil => rw [hfil] at hh; cases hh
    | cons x xs =>
      rw [hfil] at hh
      have hx : x = d := by simpa using hh
      subst hx
      simp [select_device, pyTruthyOpt, hfil, pyOrPath, hb, hs]

set_option maxRecDepth 8000 in
/-- C5 (witness). -/
theorem C5_theorem_witness :
    select_device none [exDevPlain] =
      (some "/dev/ttyUSB2", some "single device auto-detected") ∧
    (select_device none [exDevPlain, exDevHuaweiById]).1 =
      some "/dev/serial/by-id/usb-HUAWEI_Mobile-if00-port0" :=
  ⟨( C5_theorem [] exDevPlain "x").1 exDevPlain,
   ( C5_theorem [exDevPlain, exDevHuaweiById] exDevHuaweiById
      "/dev/serial/by-id/usb-HUAWEI_Mobile-if00-port0").2
      (by decide) (by decide) rfl (by decide)⟩

set_option maxRecDepth 8000 in
/-- C6 (counterexample): with two candidates where the first passes only the
model-pattern test and the second passes the vendor-id test, selection
returns the first candidate in discovery order, not the candidate matching
the higher-priority test.  This refutes the cross-candidate priority reading
of the recognition test. -/
theorem C6_counterexample :
    (select_device none [exDevPatternOnly, exDevVendorMatch]).1 = some "/dev/ttyUSB0" ∧
    is_huawei_device exDevPatternOnly = true ∧
    exDevPatternOnly.vendor ≠ "12d1" ∧
    pyContains (pyLower exDevPatternOnly.manufacturer) "huawei" = false ∧
    exDevPatternOnly.by_id_path = none ∧
    exDevVendorMatch.vendor = "12d1" ∧
    (select_device none [exDevPatternOnly, exDevVendorMatch]).1 ≠
      some exDevVendorMatch.path := by
  decide

/-- C6 (amended): with multiple candidates and no configured path, selection
returns the first candidate in discovery order that passes the recognition
test is_huawei_device (whose by-id / vendor-id / manufacturer / pattern
sub-tests are ordered only within one candidate), preferring that candidate's
truthy by-id alias over its raw path; when no candidate passes the test,
nothing is selected and manual configuration is requested. -/
theorem C6_theorem (devices : List DeviceMeta) (h2 : 2 ≤ devices.length) :
    (select_device none devices).1 =
      (devices.find? is_huawei_device).map (fun d => pyOrPath d.by_id_path d.path) ∧
    (devices.find? is_huawei_device = none →
      select_device none devices =
        (none, some "multiple non-Huawei devices, manual config required")) := by
  rcases devices with _ | ⟨a, rest⟩
  · exact absurd h2 (by simp)
  rcases rest with _ | ⟨b, t⟩
  · exact absurd h2 (by simp)
  rw [← filter_head?_eq_find?]
  cases hfil : (a :: b :: t).filter is_huawei_device with
  | nil =>
    exact ⟨by simp [select_device, pyTruthyOpt, hfil],
      fun _ => by simp [select_device, pyTruthyOpt, hfil]⟩
  | cons x xs =>
    refine ⟨by simp [select_device, pyTruthyOpt, hfil], fun hnone => ?_⟩
    simp at hnone

set_option maxRecDepth 8000 in
/-- C6 (witness). -/
theorem C6_theorem_witness :
    (select_device none [exDevPatternOnly, exDevVendorMatch]).1 =
      (([exDevPatternOnly, exDevVendorMatch].find? is_huawei_device).map
        (fun d => pyOrPath d.by_id_path d.path)) :=
  ( C6_theorem [exDevPatternOnly, exDevVendorMatch] (by decide)).1

/-- C7: when every connection test of the switcher fails, the outcome has no
successful connection, the diagnostics carry all_failed = true, and the
persisted gammurc is still written with the first catalogue profile at115200
as its primary connection. -/
theorem C7_theorem (runIdentify : String → String → String → Int × String × String)
    (device_path : String)
    (hfail : ∀ c s, (runIdentify device_path c s).1 ≠ 0) :
    (test_all_gammu_connections runIdentify device_path).successful_connection = none ∧
    (test_all_gammu_connections runIdentify device_path).diagnostics.all_failed = true ∧
    (test_all_gammu_connections runIdentify device_path).diagnostics.successful_connection =
      none ∧
    generate_final_gammurc_content device_path
      (test_all_gammu_connections runIdentify device_path).successful_connection =
      gammurcContent device_path "at115200" ∧
    connections_to_test.map Prod.fst = ["at115200", "at9600", "at"] := by
  have key : ∀ c s, (test_gammu_connection runIdentify device_path c s).success = false := by
    intro c s
    have h : ((runIdentify device_path c s).1 == 0) = false :=
      beq_eq_false_iff_ne.mpr (hfail c s)
    simpa [test_gammu_connection] using h
  have e0 := key "at115200" "gammu"
  have e1 := key "at9600" "gammu1"
  have e2 := key "at" "gammu2"
  refine ⟨?_, ?_, ?_, ?_, rfl⟩ <;>
    simp [test_all_gammu_connections, connections_to_test, generate_final_gammurc_content,
      e0, e1, e2]

/-- C7 (witness). -/
theorem C7_witness :
    (test_all_gammu_connections exRunIdentifyFail "/dev/ttyUSB0").diagnostics.all_failed =
      true ∧
    generate_final_gammurc_content "/dev/ttyUSB0"
      (test_all_gammu_connections exRunIdentifyFail "/dev/ttyUSB0").successful_connection =
      gammurcContent "/dev/ttyUSB0" "at115200" :=
  ⟨( C7_theorem exRunIdentifyFail "/dev/ttyUSB0" (fun _ _ => by simp [exRunIdentifyFail])).2.1,
   ( C7_theorem exRunIdentifyFail "/dev/ttyUSB0" (fun _ _ => by simp [exRunIdentifyFail])).2.2.2.1⟩

/-- C10: in the serialized per-probe diagnostics the stdout and stderr fields
are at most 1000 characters and differ from the raw capture whenever it
exceeds 1000 characters; in the switcher's tested_connections entries the
error detail is at most 500 characters and differs from the raw error
whenever it exceeds 500 characters. -/
theorem C10_theorem (r : GammuProbeResult) (c s : String) (tc : TestConnResult) :
    r.to_dict.stdout.length ≤ 1000 ∧
    r.to_dict.stderr.length ≤ 1000 ∧
    (1000 < r.stdout.length → r.to_dict.stdout ≠ r.stdout) ∧
    (1000 < r.stderr.length → r.to_dict.stderr ≠ r.stderr) ∧
    (∀ e ∈ (testedConnEntry c s tc).error, e.length ≤ 500) ∧
    (500 < tc.error.length → (testedConnEntry c s tc).error ≠ some tc.error) := by
  refine ⟨?_, ?_, ?_, ?_, ?_, ?_⟩
  · by_cases h : (r.stdout != "") = true
    · have hd : r.to_dict.stdout = pyTake r.stdout 1000 := by
        simp [GammuProbeResult.to_dict, h]
      rw [hd, pyTake_length]; omega
    · have hd : r.to_dict.stdout = "" := by simp [GammuProbeResult.to_dict, h]
      rw [hd]; decide
  · by_cases h : (r.stderr != "") = true
    · have hd : r.to_dict.stderr = pyTake r.stderr 1000 := by
        simp [GammuProbeResult.to_dict, h]
      rw [hd, pyTake_length]; omega
    · have hd : r.to_dict.stderr = "" := by simp [GammuProbeResult.to_dict, h]
      rw [hd]; decide
  · intro hlen heq
    have hne : (r.stdout != "") = true := by
      rcases eq_or_ne r.stdout "" with he | hne
      · rw [he] at hlen; exact absurd hlen (by decide)
      · simpa using hne
    have hd : r.to_dict.stdout = pyTake r.stdout 1000 := by
      simp [GammuProbeResult.to_dict, hne]
    rw [hd] at heq
    have hl := congrArg String.length heq
    rw [pyTake_length] at hl
    omega
  · intro hlen heq
    have hne : (r.stderr != "") = true := by
      rcases eq_or_ne r.stderr "" with he | hne
      · rw [he] at hlen; exact absurd hlen (by decide)
      · simpa using hne
    have hd : r.to_dict.stderr = pyTake r.stderr 1000 := by
      simp [GammuProbeResult.to_dict, hne]
    rw [hd] at heq
    have hl := congrArg String.length heq
    rw [pyTake_length] at hl
    omega
  · intro e he
    by_cases h : (tc.error != "") = true
    · have hd : (testedConnEntry c s tc).error = some (pyTake tc.error 500) := by
        simp [testedConnEntry, h]
      rw [hd, Option.mem_def] at he
      obtain rfl : e = pyTake tc.error 500 := by simpa using he.symm
      rw [pyTake_length]; omega
    · have hd : (testedConnEntry c s tc).error = none := by simp [testedConnEntry, h]
      rw [hd] at he
      simp at he
  · intro hlen heq
    have h : (tc.error != "") = true := by
      rcases eq_or_ne tc.error "" with he | hne
      · rw [he] at hlen; exact absurd hlen (by decide)
      · simpa using hne
    have hd : (testedConnEntry c s tc).error = some (pyTake tc.error 500) := by
      simp [testedConnEntry, h]
    rw [hd] at heq
    injection heq with heq'
    have hl := congrArg String.length heq'
    rw [pyTake_length] at hl
    omega

/-- C10 (witness). -/
theorem C10_witness :
    bigProbeResult.to_dict.stdout ≠ bigProbeResult.stdout ∧
    (testedConnEntry "at" "gammu" bigTestResult).error ≠ some bigTestResult.error := by
  constructor
  · exact ( C10_theorem bigProbeResult "at" "gammu" bigTestResult).2.2.1 (by
      show 1000 < (String.mk (List.replicate 1001 'a')).length
      rw [length_mk, List.length_replicate]
      omega)
  · exact ( C10_theorem bigProbeResult "at" "gammu" bigTestResult).2.2.2.2.2 (by
      show 500 < (String.mk (List.replicate 501 'e')).length
      rw [length_mk, List.length_replicate]
      omega)

end SmsGateway
